import Mathlib

/-!
Shallow embedding of the `den-media-automation-tools` repository
(SceneValidator pipeline in `src/tools/SceneValidator/src/scene_validator.py`
and the tools updater in `src/update_tools.py`), together with theorems
settling the specification claims about it.

Python strings are modelled as Lean `String`; Python `str.split(sep, 1)`,
substring containment (`in`), `str.strip`, `str.lower`, `str.capitalize`
and `os.path.splitext` are embedded below.  External library calls
(the Gemini `generate_content` call and `json.loads`) are modelled as
function parameters bundled in `GeminiEnv`; the local filesystem is
modelled as a partial map `String → Option String`.
-/

/-- The six ASCII characters Python `str.strip` removes (non-ASCII
Unicode spaces are out of scope for this source). -/
def pyIsSpace (c : Char) : Bool :=
  c == ' ' || c == '\t' || c == '\n' || c == '\r' || c.toNat == 11 || c.toNat == 12

/-- Python `str.strip()` with no argument. -/
def pyStrip (s : String) : String :=
  String.mk (((s.data.dropWhile pyIsSpace).reverse.dropWhile pyIsSpace).reverse)

/-- Whether the first list is a prefix of the second (structural, so that
proofs can evaluate it inside the kernel). -/
def isPrefixList : List Char → List Char → Bool
  | [], _ => true
  | _ :: _, [] => false
  | a :: as, b :: bs => a == b && isPrefixList as bs

/-- Python `s.startswith(pre)`. -/
def pyStartsWith (s pre : String) : Bool :=
  isPrefixList pre.data s.data

/-- Python `str.lower` (ASCII range; every string the source lowers is
an extension or a format name). -/
def pyLower (s : String) : String :=
  String.mk (s.data.map Char.toLower)

/-- Python `s[:n]`. -/
def pyTake (s : String) (n : Nat) : String :=
  String.mk (s.data.take n)

/-- Splitting worker: scans left to right, breaking at each
non-overlapping occurrence of `sep`.  The fuel argument (one step per
scanned character, so `length + 1` suffices) keeps the recursion
structural and hence kernel-evaluable. -/
def splitOnFuel (sep : List Char) : Nat → List Char → List Char → List (List Char)
  | 0, _, acc => [acc.reverse]
  | _ + 1, [], acc => [acc.reverse]
  | fuel + 1, c :: rest, acc =>
    if isPrefixList sep (c :: rest) then
      acc.reverse :: splitOnFuel sep fuel (rest.drop (sep.length - 1)) []
    else
      splitOnFuel sep fuel rest (c :: acc)

/-- Python `s.split(sep)` for a non-empty separator (Python raises on an
empty one; the source never passes one). -/
def pySplitAll (s sep : String) : List String :=
  if sep = "" then [s]
  else (splitOnFuel sep.data (s.data.length + 1) s.data []).map String.mk

/-- Python substring containment `sub in s` (the empty string is contained
in every string). -/
def pyContains (s sub : String) : Bool :=
  if sub = "" then true else (pySplitAll s sub).length > 1

/-- `sep.join(parts)`. -/
def pyIntercalate (sep : String) : List String → String
  | [] => ""
  | [x] => x
  | x :: y :: rest => x ++ sep ++ pyIntercalate sep (y :: rest)

/-- Python `s.split(sep, 1)` as a pair (before, after).  When `sep` does not
occur in `s` the pair is `(s, "")`; the source only reads the second
component under a containment guard, matching Python's list indexing. -/
def pySplit1 (s sep : String) : String × String :=
  match pySplitAll s sep with
  | [] => (s, "")
  | [x] => (x, "")
  | x :: rest => (x, pyIntercalate sep rest)

/-- Python `str.capitalize`: first character upper-cased, rest lower-cased. -/
def pyCapitalize (s : String) : String :=
  match s.data with
  | [] => ""
  | c :: cs => String.mk (c.toUpper :: cs.map Char.toLower)

/-- Index of the last occurrence of `c` in `cs`, or `-1` when absent
(mirrors CPython's `str.rfind` as used by `os.path.splitext`). -/
def lastIndexOf (cs : List Char) (c : Char) : Int :=
  match (cs.enum.filter (fun p => p.2 == c)).getLast? with
  | some (i, _) => (i : Int)
  | none => -1

/-- `os.path.splitext` (POSIX): the extension starts at the last dot that
comes after the last path separator, provided at least one earlier
character of the basename is not a dot (so dotfiles have no extension). -/
def pySplitext (p : String) : String × String :=
  let cs := p.data
  let sepIdx := lastIndexOf cs '/'
  let dotIdx := lastIndexOf cs '.'
  if sepIdx < dotIdx then
    let b := (sepIdx + 1).toNat
    let d := dotIdx.toNat
    if (List.range (d - b)).any (fun k => cs.getD (b + k) '.' != '.') then
      (String.mk (cs.take d), String.mk (cs.drop d))
    else
      (p, "")
  else
    (p, "")

/-- JSON values, the shape `json.loads` can return.  Numbers are modelled
as integers; numeric fidelity is irrelevant to every claim (the code only
compares parsed fields against string literals). -/
inductive Json where
  | null : Json
  | bool : Bool → Json
  | num : Int → Json
  | str : String → Json
  | arr : List Json → Json
  | obj : List (String × Json) → Json

/-- A rendering of a JSON value used where Python would store a non-string
value in a string-typed dataclass field.  The code only ever compares such
fields with the literals "high", "medium", "low"; no rendering of a
non-string value can collide with those, matching Python's `==` there. -/
def jsonTag : Json → String
  | Json.null => "null"
  | Json.bool true => "true"
  | Json.bool false => "false"
  | Json.num n => toString n
  | Json.str s => s
  | Json.arr _ => "[...]"
  | Json.obj _ => "\x7b...\x7d"

/-- `fields.get(key, default)` for a string-valued field. -/
def jsonGetStr (fields : List (String × Json)) (key dflt : String) : String :=
  match fields.find? (fun p => p.1 == key) with
  | some (_, Json.str s) => s
  | some (_, v) => jsonTag v
  | none => dflt

/-- `fields.get("suggestions", [])` coerced to a list of strings. -/
def jsonGetStrList (fields : List (String × Json)) (key : String) : List String :=
  match fields.find? (fun p => p.1 == key) with
  | some (_, Json.arr xs) => xs.map jsonTag
  | some (_, v) => [jsonTag v]
  | none => []

/-- `ValidationIssue` dataclass of `scene_validator.py`. -/
structure ValidationIssue where
  issue_type : String
  description : String
  location : String
  severity : String
  suggestions : List String
deriving DecidableEq, Repr

/-- `ValidationResult` dataclass of `scene_validator.py` (the `get_report`
method is embedded separately as `get_report`). -/
structure ValidationResult where
  valid : Bool
  issues : List ValidationIssue
  summary : String
deriving DecidableEq, Repr

/-- The issue appended for empty content (lines 148-154 of the source). -/
def emptyContentIssue : ValidationIssue :=
  { issue_type := "empty_content"
  , description := "The script content is empty"
  , location := "entire file"
  , severity := "high"
  , suggestions := ["Add content to the script file"] }

/-- The issue appended when no scene headers are found (lines 217-226). -/
def missingSceneHeadersIssue : ValidationIssue :=
  { issue_type := "missing_scene_headers"
  , description := "No standard scene headers (INT./EXT.) found"
  , location := "entire script"
  , severity := "medium"
  , suggestions :=
      [ "Add proper scene headers starting with INT. or EXT."
      , "Format scene headings according to screenplay standards" ] }

/-- The synthetic issue appended when parsing the Gemini response fails
(lines 349-355). -/
def geminiParsingIssue : ValidationIssue :=
  { issue_type := "gemini_parsing_error"
  , description := "Error parsing Gemini analysis response"
  , location := "analysis system"
  , severity := "low"
  , suggestions := ["Check Gemini API service status", "Try analyzing a shorter script"] }

/-- The synthetic issue appended when the Gemini call itself fails
(lines 359-365); `e` is `str(e)` of the raised exception. -/
def geminiAnalysisIssue (e : String) : ValidationIssue :=
  { issue_type := "gemini_analysis_error"
  , description := "Error during Gemini analysis: " ++ e
  , location := "analysis system"
  , severity := "low"
  , suggestions := ["Check Gemini API configuration", "Verify API key is valid"] }

/-- `_validate_scene_structure` (lines 196-230): for screenplay extensions,
emit one medium issue when no line trimmed-starts with INT. or EXT. -/
def _validate_scene_structure (content : String) (file_type : String) :
    List ValidationIssue :=
  if [".fdx", ".fountain"].contains file_type then
    let lines := pySplitAll content "\n"
    let scene_headers := lines.filter
      (fun l => pyStartsWith (pyStrip l) "INT." || pyStartsWith (pyStrip l) "EXT.")
    if scene_headers.isEmpty then [missingSceneHeadersIssue] else []
  else
    []

/-- `_validate_continuity` (lines 232-245): a declared placeholder that
returns no issues. -/
def _validate_continuity (_content : String) : List ValidationIssue := []

/-- `_validate_character_consistency` (lines 247-260): a declared
placeholder that returns no issues. -/
def _validate_character_consistency (_content : String) : List ValidationIssue := []

/-- Content preparation for Gemini (lines 279-284): truncate at 30000
characters, appending a marker. -/
def analysisContentOf (content : String) : String :=
  if content.length > 30000 then pyTake content 30000 ++ "...[truncated]"
  else content

/-- The analysis prompt f-string (lines 287-304) with the (possibly
truncated) content embedded. -/
def geminiPrompt (content : String) : String :=
  "\n            Analyze the following script content for potential issues:\n"
  ++ "            \n"
  ++ "            1. Identify continuity problems (e.g., objects appearing/disappearing, time inconsistencies)\n"
  ++ "            2. Check for character consistency issues\n"
  ++ "            3. Identify structural problems in the narrative\n"
  ++ "            4. Look for logical flaws or plot holes\n"
  ++ "            \n"
  ++ "            Respond in JSON format with found issues, each containing:\n"
  ++ "            - issue_type: The category of issue\n"
  ++ "            - description: Clear description of the problem\n"
  ++ "            - location: Where in the script the issue occurs\n"
  ++ "            - severity: \"high\", \"medium\", or \"low\"\n"
  ++ "            - suggestions: Array of suggestions to fix the issue\n"
  ++ "            \n"
  ++ "            Script content:\n"
  ++ "            " ++ analysisContentOf content ++ "\n            "

/-- JSON payload location inside the free-form response text
(lines 315-320): a fenced block tagged json, else the first fenced block,
else the whole response. -/
def extractJsonStr (response_text : String) : String :=
  if pyContains response_text "```json"
      && pyContains (pySplit1 response_text "```json").2 "```" then
    (pySplit1 (pySplit1 response_text "```json").2 "```").1
  else if pyContains response_text "```"
      && pyContains (pySplit1 response_text "```").2 "```" then
    (pySplit1 (pySplit1 response_text "```").2 "```").1
  else
    response_text

/-- One record of the parsed response mapped to a `ValidationIssue`
(lines 331-337 / 340-346): `.get` with fixed defaults.  A non-dict record
raises in Python (`AttributeError` on `.get`), modelled as `.error`. -/
def issueFromItem : Json → Except String ValidationIssue
  | Json.obj fields => Except.ok
      { issue_type := jsonGetStr fields "issue_type" "unknown"
      , description := jsonGetStr fields "description" "No description provided"
      , location := jsonGetStr fields "location" "unknown"
      , severity := jsonGetStr fields "severity" "medium"
      , suggestions := jsonGetStrList fields "suggestions" }
  | _ => Except.error "AttributeError"

/-- The conversion loop: issues already appended survive, and the first
failing record aborts the loop into the inner except-handler, which
appends the synthetic parsing issue (lines 347-355). -/
def convertItems : List Json → List ValidationIssue → List ValidationIssue
  | [], acc => acc.reverse
  | j :: rest, acc =>
    match issueFromItem j with
    | Except.ok i => convertItems rest (i :: acc)
    | Except.error _ => acc.reverse ++ [geminiParsingIssue]

/-- Dispatch on the parsed JSON value (lines 329-346): a top-level list is
converted record by record; a dict is converted the same way when its
"issues" entry is a list (iterating a non-list "issues" value raises in
Python unless it is an empty string or empty dict, both of which iterate
zero times); any other shape leaves the issue list empty. -/
def issuesFromJson : Json → List ValidationIssue
  | Json.arr items => convertItems items []
  | Json.obj fields =>
    match fields.find? (fun p => p.1 == "issues") with
    | some (_, Json.arr items) => convertItems items []
    | some (_, Json.str s) => if s = "" then [] else [geminiParsingIssue]
    | some (_, Json.obj fs) => if fs.isEmpty then [] else [geminiParsingIssue]
    | some (_, _) => [geminiParsingIssue]
    | none => []
  | _ => []

/-- The external dependencies of `_analyze_with_gemini`: the Gemini call
(`generate_content` composed with reading `.text`, returning the response
payload or the raised exception's message) and the standard library's
`json.loads` (returning the parsed value or the raised error). -/
structure GeminiEnv where
  generate : String → Except String String
  jsonLoads : String → Except String Json

/-- `_analyze_with_gemini` (lines 262-367) for a configured model.  The
outer try/except turns a failing call into the single analysis-error
issue; the inner try/except turns any extraction/parsing failure into the
single parsing-error issue.  The Lean function is total (returns a plain
list, never an error), embedding that no exception propagates. -/
def _analyze_with_gemini (env : GeminiEnv) (content : String) :
    List ValidationIssue :=
  match env.generate (geminiPrompt content) with
  | Except.error e => [geminiAnalysisIssue e]
  | Except.ok response_text =>
    let json_str := pyStrip (extractJsonStr response_text)
    match env.jsonLoads json_str with
    | Except.error _ => [geminiParsingIssue]
    | Except.ok result => issuesFromJson result

/-- The summary recomputed from an issue list, exactly as lines 182-188
build it: the count partition by severity, or a fixed sentence when the
list is empty. -/
def mkSummary (issues : List ValidationIssue) : String :=
  if issues.isEmpty then "No issues found in the script."
  else
    let total := issues.length
    let high_count := (issues.filter (fun i => i.severity == "high")).length
    let medium_count := (issues.filter (fun i => i.severity == "medium")).length
    let low_count := (issues.filter (fun i => i.severity == "low")).length
    "Found " ++ toString total ++ " issues: " ++ toString high_count
      ++ " high, " ++ toString medium_count ++ " medium, "
      ++ toString low_count ++ " low severity."

/-- `validate_content` (lines 133-194).  `gemini` is `self.gemini_model`:
`none` when no model is configured, `some env` otherwise.  Empty content
short-circuits with a fixed result; otherwise the rule issues and (when
configured) the Gemini issues are concatenated, and `valid` and `summary`
are computed from the final list. -/
def validate_content (gemini : Option GeminiEnv) (content : String)
    (file_type : String := ".txt") : ValidationResult :=
  if content = "" then
    { valid := false
    , issues := [emptyContentIssue]
    , summary := "Validation failed: Empty script content" }
  else
    let issues :=
      _validate_scene_structure content file_type
      ++ _validate_continuity content
      ++ _validate_character_consistency content
      ++ (match gemini with
          | some env => _analyze_with_gemini env content
          | none => [])
    let valid := (issues.filter (fun i => i.severity == "high")).length == 0
    let summary :=
      if issues.isEmpty then "No issues found in the script."
      else
        let total := issues.length
        let high_count := (issues.filter (fun i => i.severity == "high")).length
        let medium_count := (issues.filter (fun i => i.severity == "medium")).length
        let low_count := (issues.filter (fun i => i.severity == "low")).length
        "Found " ++ toString total ++ " issues: " ++ toString high_count
          ++ " high, " ++ toString medium_count ++ " medium, "
          ++ toString low_count ++ " low severity."
    { valid := valid, issues := issues, summary := summary }

/-- The file-type tag `validate_file` derives (line 128):
`os.path.splitext(file_path)[1].lower()`. -/
def fileTypeOf (file_path : String) : String :=
  pyLower (pySplitext file_path).2

/-- Follows the spec's words, for comparison with `fileTypeOf`: the tag
"default[s] to a generic tag when the extension is absent"; the only
generic default tag in the source is `validate_content`'s ".txt". -/
def specFileTypeTag (file_path : String) : String :=
  let ext := pyLower (pySplitext file_path).2
  if ext = "" then ".txt" else ext

/-- `validate_file` (lines 110-131) over a filesystem modelled as a
partial map from paths to text contents: a missing path raises
`FileNotFoundError` (modelled as `.error` with the formatted message),
otherwise the full content is read and validated under the derived tag. -/
def validate_file (fs : String → Option String) (gemini : Option GeminiEnv)
    (file_path : String) : Except String ValidationResult :=
  match fs file_path with
  | none => Except.error ("Script file not found: " ++ file_path)
  | some content => Except.ok (validate_content gemini content (fileTypeOf file_path))

/-- The JSON tree `get_report` hands to `json.dumps` for one issue:
`vars(issue)`, the dataclass fields in declaration order (line 49). -/
def issueJson (i : ValidationIssue) : Json :=
  Json.obj
    [ ("issue_type", Json.str i.issue_type)
    , ("description", Json.str i.description)
    , ("location", Json.str i.location)
    , ("severity", Json.str i.severity)
    , ("suggestions", Json.arr (i.suggestions.map Json.str)) ]

/-- The JSON tree `get_report` hands to `json.dumps` (lines 47-51). -/
def reportJson (r : ValidationResult) : Json :=
  Json.obj
    [ ("valid", Json.bool r.valid)
    , ("issues", Json.arr (r.issues.map issueJson))
    , ("summary", Json.str r.summary) ]

/-- Field lookup in a parsed JSON object (reading the rendered report
back, as `json.loads` would). -/
def jsonField (j : Json) (key : String) : Option Json :=
  match j with
  | Json.obj fields => (fields.find? (fun p => p.1 == key)).map (fun p => p.2)
  | _ => none

/-- The `valid` flag read back from a rendered report. -/
def jsonValidFlag (j : Json) : Option Bool :=
  match jsonField j "valid" with
  | some (Json.bool b) => some b
  | _ => none

/-- The number of issues of severity `sev` read back from a rendered
report. -/
def jsonSeverityCount (j : Json) (sev : String) : Nat :=
  match jsonField j "issues" with
  | some (Json.arr items) =>
    (items.filter (fun it =>
      match jsonField it "severity" with
      | some (Json.str s) => s == sev
      | _ => false)).length
  | _ => 0

/-- Hexadecimal digit, lower case. -/
def hexDigit (n : Nat) : Char :=
  if n < 10 then Char.ofNat (n + 48) else Char.ofNat (n + 87)

/-- Four-digit hexadecimal rendering. -/
def hex4 (n : Nat) : String :=
  String.mk [hexDigit (n / 4096 % 16), hexDigit (n / 256 % 16),
             hexDigit (n / 16 % 16), hexDigit (n % 16)]

/-- JSON string escaping as `json.dumps` performs it (default
`ensure_ascii=True`): short escapes, `\uXXXX` for other control or
non-ASCII characters, surrogate pairs beyond the basic plane. -/
def escapeJsonChar (c : Char) : String :=
  if c = '"' then "\\\""
  else if c = '\\' then "\\\\"
  else if c = '\n' then "\\n"
  else if c = '\t' then "\\t"
  else if c = '\r' then "\\r"
  else if c.toNat = 8 then "\\b"
  else if c.toNat = 12 then "\\f"
  else if c.toNat < 32 || c.toNat > 126 then
    if c.toNat ≥ 65536 then
      "\\u" ++ hex4 (55296 + (c.toNat - 65536) / 1024)
        ++ "\\u" ++ hex4 (56320 + (c.toNat - 65536) % 1024)
    else "\\u" ++ hex4 c.toNat
  else String.singleton c

/-- A JSON string literal as `json.dumps` renders it. -/
def encodeJsonString (s : String) : String :=
  "\"" ++ String.join (s.data.map escapeJsonChar) ++ "\""

/-- `indent` spaces. -/
def indentStr (n : Nat) : String := String.mk (List.replicate n ' ')

mutual

/-- `json.dumps(value, indent=2)` at nesting indentation `ind`. -/
def dumpJson (ind : Nat) : Json → String
  | Json.null => "null"
  | Json.bool true => "true"
  | Json.bool false => "false"
  | Json.num n => toString n
  | Json.str s => encodeJsonString s
  | Json.arr [] => "[]"
  | Json.arr (x :: xs) =>
    "[\n" ++ dumpItems (ind + 2) (x :: xs) ++ "\n" ++ indentStr ind ++ "]"
  | Json.obj [] => "\x7b\x7d"
  | Json.obj (f :: fs) =>
    "\x7b\n" ++ dumpFields (ind + 2) (f :: fs) ++ "\n" ++ indentStr ind ++ "\x7d"

/-- Array elements, comma-newline separated, each on its own indented
line. -/
def dumpItems (ind : Nat) : List Json → String
  | [] => ""
  | [x] => indentStr ind ++ dumpJson ind x
  | x :: y :: xs =>
    indentStr ind ++ dumpJson ind x ++ ",\n" ++ dumpItems ind (y :: xs)

/-- Object entries, comma-newline separated, `": "` between key and
value. -/
def dumpFields (ind : Nat) : List (String × Json) → String
  | [] => ""
  | [(k, v)] => indentStr ind ++ encodeJsonString k ++ ": " ++ dumpJson ind v
  | (k, v) :: g :: fs =>
    indentStr ind ++ encodeJsonString k ++ ": " ++ dumpJson ind v ++ ",\n"
      ++ dumpFields ind (g :: fs)

end

/-- One table row of the HTML report (lines 68-74). -/
def htmlIssueRow (issue : ValidationIssue) : String :=
  "<tr>"
  ++ "<td>" ++ issue.issue_type ++ "</td>"
  ++ "<td>" ++ issue.description ++ "</td>"
  ++ "<td>" ++ issue.location ++ "</td>"
  ++ "<td class=\"" ++ issue.severity ++ "\">" ++ pyCapitalize issue.severity ++ "</td>"
  ++ "<td><ul>"
  ++ String.join (issue.suggestions.map (fun s => "<li>" ++ s ++ "</li>"))
  ++ "</ul></td>"
  ++ "</tr>"

/-- The HTML report (lines 53-80): status label and class from `valid`,
severity as the CSS class of its cell, issues table only when the list is
non-empty. -/
def htmlReport (r : ValidationResult) : String :=
  "<html><head><title>Scene Validation Report</title>"
  ++ "<style>body\x7bfont-family:Arial;max-width:800px;margin:0 auto;padding:20px\x7d"
  ++ ".valid\x7bcolor:green\x7d.invalid\x7bcolor:red\x7d"
  ++ ".high\x7bcolor:red\x7d.medium\x7bcolor:orange\x7d.low\x7bcolor:blue\x7d"
  ++ "table\x7bwidth:100%;border-collapse:collapse\x7d"
  ++ "td,th\x7bborder:1px solid #ddd;padding:8px\x7d</style></head><body>"
  ++ "<h1>Scene Validation Report</h1>"
  ++ "<h2 class=\"" ++ (if r.valid then "valid" else "invalid") ++ "\">Status: "
  ++ (if r.valid then "Valid" else "Invalid") ++ "</h2>"
  ++ "<h3>Summary</h3><p>" ++ r.summary ++ "</p>"
  ++ (if r.issues.isEmpty then "<p>No issues found!</p>"
      else
        "<h3>Issues</h3><table>"
        ++ "<tr><th>Type</th><th>Description</th><th>Location</th><th>Severity</th><th>Suggestions</th></tr>"
        ++ String.join (r.issues.map htmlIssueRow)
        ++ "</table>")
  ++ "</body></html>"

/-- `ValidationResult.get_report` (lines 44-82): case-insensitive dispatch
on the format name; an unrecognized format raises `ValueError` with the
original (un-lowered) format embedded, modelled as `.error`. -/
def get_report (r : ValidationResult) (format : String) : Except String String :=
  if pyLower format = "json" then
    Except.ok (dumpJson 0 (reportJson r))
  else if pyLower format = "html" then
    Except.ok (htmlReport r)
  else
    Except.error ("Unsupported report format: " ++ format)

/-- The side effects `update_tools.py` would perform (its external
integrations are stubs, so each operation's intended action is recorded
as one abstract effect; logging happens identically in dry and real runs
and is not an effect of interest — the claim under scrutiny itself sets
logging aside). -/
inductive UpdateEffect where
  | updateDoc : String → UpdateEffect
  | ensureDir : String → UpdateEffect
  | updateCode : String → UpdateEffect
  | updateTimestamp : String → String → UpdateEffect
  | sendDen : String → UpdateEffect
  | writeFile : String → String → UpdateEffect
deriving DecidableEq, Repr

/-- Whether an effect is a local file write. -/
def isFileWrite : UpdateEffect → Bool
  | UpdateEffect.writeFile _ _ => true
  | _ => false

/-- One row of the tracking spreadsheet as `get_tools_data` returns it
(field names are the dict keys of lines 78-89). -/
structure ToolRecord where
  toolId : String
  toolName : String
  description : String
  dependencies : String
  lastUpdated : String
  repositoryPath : String
  documentationURL : String
  integrationPoints : String
  primaryTechnology : String
  implementationStatus : String
deriving DecidableEq, Repr

/-- `get_tools_data` (lines 64-94): the simulated spreadsheet read,
returning one hard-coded row. -/
def get_tools_data : List ToolRecord :=
  [ { toolId := "T001"
    , toolName := "SceneValidator"
    , description := "Validates scene structure and continuity in scripts and media projects"
    , dependencies := "Gemini API, Google Cloud Storage (optional)"
    , lastUpdated := "2025-06-21"
    , repositoryPath := "tools/SceneValidator"
    , documentationURL := "https://docs.google.com/document/d/1H92VkAMqgW06w0sA0805nQ5FOTnCjeJ2rhIQRJ8gIp8"
    , integrationPoints := "StoryboardGen, ContinuityTracker, TimelineAssembler"
    , primaryTechnology := "Python + Gemini API"
    , implementationStatus := "In Progress" } ]

/-- Update statistics (lines 106-113). -/
structure UpdateStats where
  tools_updated : Nat
  docs_updated : Nat
  code_updated : Nat
  errors : Nat
  new_tools : Nat
  tools_processed : Nat
deriving DecidableEq, Repr

/-- `ToolsUpdater.update_documentation` (lines 143-165): a dry run only
logs and returns False; otherwise the (stubbed) documentation update is
performed and True is returned. -/
def update_documentation (dry_run : Bool) (tool : ToolRecord) :
    Bool × List UpdateEffect :=
  if dry_run then (false, [])
  else (true, [UpdateEffect.updateDoc tool.toolName])

/-- `ToolsUpdater.ensure_tool_directory` (lines 167-190): no repository
path means False immediately; a dry run logs and returns False; otherwise
the (stubbed) directory creation is performed and True is returned. -/
def ensure_tool_directory (dry_run : Bool) (tool : ToolRecord) :
    Bool × List UpdateEffect :=
  if tool.repositoryPath = "" then (false, [])
  else if dry_run then (false, [])
  else (true, [UpdateEffect.ensureDir tool.repositoryPath])

/-- `ToolsUpdater.update_tool_code` (lines 192-212). -/
def update_tool_code (dry_run : Bool) (tool : ToolRecord) :
    Bool × List UpdateEffect :=
  if dry_run then (false, [])
  else (true, [UpdateEffect.updateCode tool.toolName])

/-- `ToolsUpdater.update_last_updated` (lines 214-235); `today` is
`datetime.now().strftime` of the current date. -/
def update_last_updated (dry_run : Bool) (today : String) (tool : ToolRecord) :
    Bool × List UpdateEffect :=
  if dry_run then (false, [])
  else (true, [UpdateEffect.updateTimestamp tool.toolName today])

/-- `ToolsUpdater.send_den_message` (lines 270-290). -/
def send_den_message (dry_run : Bool) (summary : String) :
    Bool × List UpdateEffect :=
  if dry_run then (false, [])
  else (true, [UpdateEffect.sendDen summary])

/-- The loop body of `update_tools` (lines 115-139) for one tool: the
documentation step under a truthy Documentation URL, the two repository
steps under a truthy Repository Path, and the timestamp step only outside
dry runs.  The row type is total, so the per-tool except-handler
(`errors`) is unreachable here. -/
def processTool (dry_run : Bool) (today : String)
    (acc : UpdateStats × List UpdateEffect) (tool : ToolRecord) :
    UpdateStats × List UpdateEffect :=
  let stats := acc.1
  let effects := acc.2
  let docStep :=
    if tool.documentationURL ≠ "" then update_documentation dry_run tool
    else (false, [])
  let stats := if docStep.1 then { stats with docs_updated := stats.docs_updated + 1 } else stats
  let dirStep :=
    if tool.repositoryPath ≠ "" then ensure_tool_directory dry_run tool
    else (false, [])
  let stats := if dirStep.1 then { stats with tools_updated := stats.tools_updated + 1 } else stats
  let codeStep :=
    if tool.repositoryPath ≠ "" then update_tool_code dry_run tool
    else (false, [])
  let stats := if codeStep.1 then { stats with code_updated := stats.code_updated + 1 } else stats
  let tsStep :=
    if dry_run then (false, []) else update_last_updated dry_run today tool
  (stats, effects ++ docStep.2 ++ dirStep.2 ++ codeStep.2 ++ tsStep.2)

/-- `ToolsUpdater.update_tools` (lines 96-141). -/
def update_tools (dry_run : Bool) (today : String)
    (tools_data : List ToolRecord) : UpdateStats × List UpdateEffect :=
  tools_data.foldl (processTool dry_run today)
    ({ tools_updated := 0, docs_updated := 0, code_updated := 0
     , errors := 0, new_tools := 0, tools_processed := tools_data.length }, [])

/-- `ToolsUpdater.generate_summary_report` (lines 237-268); `now` is the
formatted current timestamp. -/
def generate_summary_report (now : String) (stats : UpdateStats) : String :=
  "# Media Automation Tools Update Report\n\n"
  ++ "**Generated:** " ++ now ++ "\n\n"
  ++ "## Update Statistics\n\n"
  ++ "- **Tools Processed:** " ++ toString stats.tools_processed ++ "\n"
  ++ "- **Tools Updated:** " ++ toString stats.tools_updated ++ "\n"
  ++ "- **Documentation Updated:** " ++ toString stats.docs_updated ++ "\n"
  ++ "- **Code Updated:** " ++ toString stats.code_updated ++ "\n"
  ++ "- **New Tools Added:** " ++ toString stats.new_tools ++ "\n"
  ++ "- **Errors Encountered:** " ++ toString stats.errors ++ "\n\n"
  ++ (if stats.errors > 0 then
        "⚠️ Some errors were encountered during the update process. Check the logs for details.\n\n"
      else
        "✅ Update completed successfully with no errors.\n\n")
  ++ "## Details\n\n"
  ++ "For detailed information about each tool, please refer to the [tracking spreadsheet](https://docs.google.com/spreadsheets/d/1PR2yfkXdBnM4texzan_nBj79H9Fe_jpvaSZhBGuwTow).\n\n"

/-- `ToolsUpdater.run` (lines 292-317) as the list of effects one full
run performs: the per-tool update effects, the Den message, and — in
every mode, dry or not — the write of `last_update_summary.md`. -/
def updaterRun (dry_run : Bool) (today now : String) : List UpdateEffect :=
  let tools_data := get_tools_data
  let step := update_tools dry_run today tools_data
  let summary := generate_summary_report now step.1
  let denStep := send_den_message dry_run summary
  step.2 ++ denStep.2 ++ [UpdateEffect.writeFile "last_update_summary.md" summary]

/-- C1: for every result of `validate_content`, the `valid` flag is true
iff no issue in the result's list has severity "high". -/
theorem valid_iff_no_high_severity (gemini : Option GeminiEnv)
    (content file_type : String) :
    (validate_content gemini content file_type).valid = true ↔
      ∀ i ∈ (validate_content gemini content file_type).issues,
        i.severity ≠ "high" := by
  unfold validate_content
  by_cases h : content = ""
  · simp [h, emptyContentIssue]
  · cases gemini <;> simp [h, List.length_eq_zero, List.filter_eq_nil_iff] <;>
      aesop

/-- C2: empty content short-circuits: for every file type and Gemini
configuration the result is built immediately as the invalid result whose
issue list is exactly the single high-severity "empty_content" issue. -/
theorem empty_content_short_circuit (gemini : Option GeminiEnv)
    (file_type : String) :
    validate_content gemini "" file_type =
      { valid := false
      , issues := [emptyContentIssue]
      , summary := "Validation failed: Empty script content" } ∧
    emptyContentIssue.issue_type = "empty_content" ∧
    emptyContentIssue.severity = "high" := by
  refine ⟨?_, rfl, rfl⟩
  simp [validate_content]

/-- C3: for screenplay extensions, the scene-structure check emits exactly
the single medium "missing_scene_headers" issue (carrying its two fixed
suggestions) precisely when no line of the content trimmed-starts with
"INT." or "EXT."; for any other extension it emits nothing. -/
theorem scene_header_rule (content file_type : String) :
    ((file_type = ".fdx" ∨ file_type = ".fountain") →
      ((∀ l ∈ pySplitAll content "\n",
          ¬(pyStartsWith (pyStrip l) "INT." = true ∨
            pyStartsWith (pyStrip l) "EXT." = true)) →
        _validate_scene_structure content file_type = [missingSceneHeadersIssue]) ∧
      ((∃ l ∈ pySplitAll content "\n",
          pyStartsWith (pyStrip l) "INT." = true ∨
          pyStartsWith (pyStrip l) "EXT." = true) →
        _validate_scene_structure content file_type = [])) ∧
    (¬(file_type = ".fdx" ∨ file_type = ".fountain") →
      _validate_scene_structure content file_type = []) ∧
    missingSceneHeadersIssue.severity = "medium" ∧
    missingSceneHeadersIssue.suggestions =
      [ "Add proper scene headers starting with INT. or EXT."
      , "Format scene headings according to screenplay standards" ] := by
  refine ⟨?_, ?_, rfl, rfl⟩
  · intro hft
    have hc : ([".fdx", ".fountain"].contains file_type) = true := by
      rcases hft with h | h <;> simp [h]
    constructor
    · intro hall
      have hnil : (pySplitAll content "\n").filter
          (fun l => pyStartsWith (pyStrip l) "INT."
            || pyStartsWith (pyStrip l) "EXT.") = [] := by
        refine List.filter_eq_nil_iff.mpr ?_
        intro l hl
        have := hall l hl
        simp only [Bool.or_eq_true]
        tauto
      simp only [_validate_scene_structure, hc, if_true, hnil]
      simp
    · rintro ⟨l, hl, hpred⟩
      have hmem : l ∈ (pySplitAll content "\n").filter
          (fun l => pyStartsWith (pyStrip l) "INT."
            || pyStartsWith (pyStrip l) "EXT.") := by
        refine List.mem_filter.mpr ⟨hl, ?_⟩
        simp only [Bool.or_eq_true]
        exact hpred
      have hne := List.ne_nil_of_mem hmem
      simp only [_validate_scene_structure, hc, if_true]
      simp [List.isEmpty_iff, hne]
  · intro hft
    have hc : ([".fdx", ".fountain"].contains file_type) = false := by
      push_neg at hft
      simp [hft.1, hft.2]
    simp only [_validate_scene_structure, hc]
    simp

/-- Witness for C3 at concrete inputs: prose with no scene headers under
".fountain" yields the missing-headers issue; content with an "INT." line
yields none; a ".txt" file yields none. -/
theorem scene_header_rule_witness :
    _validate_scene_structure "Just some prose." ".fountain" =
      [missingSceneHeadersIssue] ∧
    _validate_scene_structure "INT. HOUSE - DAY\nAction." ".fountain" = [] ∧
    _validate_scene_structure "Just some prose." ".txt" = [] :=
  ⟨((scene_header_rule "Just some prose." ".fountain").1
      (Or.inr rfl)).1 (by decide),
   ((scene_header_rule "INT. HOUSE - DAY\nAction." ".fountain").1
      (Or.inr rfl)).2 ⟨"INT. HOUSE - DAY", by decide, by decide⟩,
   (scene_header_rule "Just some prose." ".txt").2.1 (by decide)⟩

/-- C4: `_analyze_with_gemini` is total (it returns a plain issue list for
every environment and content, so no exception propagates), and each of
the two failure points named by the spec — the external call, and JSON
extraction/parsing of its response — is converted into exactly one
synthetic low-severity issue of the corresponding kind. -/
theorem gemini_failure_policy (env : GeminiEnv) (content : String) :
    (∀ e, env.generate (geminiPrompt content) = Except.error e →
      _analyze_with_gemini env content = [geminiAnalysisIssue e] ∧
      (geminiAnalysisIssue e).issue_type = "gemini_analysis_error" ∧
      (geminiAnalysisIssue e).severity = "low") ∧
    (∀ text e, env.generate (geminiPrompt content) = Except.ok text →
      env.jsonLoads (pyStrip (extractJsonStr text)) = Except.error e →
      _analyze_with_gemini env content = [geminiParsingIssue] ∧
      geminiParsingIssue.issue_type = "gemini_parsing_error" ∧
      geminiParsingIssue.severity = "low") := by
  constructor
  · intro e he
    refine ⟨?_, rfl, rfl⟩
    simp [_analyze_with_gemini, he]
  · intro text e hok hparse
    refine ⟨?_, rfl, rfl⟩
    simp [_analyze_with_gemini, hok, hparse]

/-- Witness for C4 at a concrete environment: a failing call yields the
single analysis-error issue; a call returning the non-JSON payload
"not valid JSON" (with a loader failing on it) yields the single
parsing-error issue. -/
theorem gemini_failure_policy_witness :
    (_analyze_with_gemini
      { generate := fun _ => Except.error "boom"
      , jsonLoads := fun _ => Except.error "unreachable" } "INT. X" =
        [geminiAnalysisIssue "boom"]) ∧
    (_analyze_with_gemini
      { generate := fun _ => Except.ok "not valid JSON"
      , jsonLoads := fun _ => Except.error "Expecting value" } "INT. X" =
        [geminiParsingIssue]) :=
  ⟨((gemini_failure_policy
      { generate := fun _ => Except.error "boom"
      , jsonLoads := fun _ => Except.error "unreachable" } "INT. X").1
      "boom" rfl).1,
   ((gemini_failure_policy
      { generate := fun _ => Except.ok "not valid JSON"
      , jsonLoads := fun _ => Except.error "Expecting value" } "INT. X").2
      "not valid JSON" "Expecting value" rfl rfl).1⟩

/-- C5 counterexample: the result built for empty content carries one
high-severity issue, yet its summary is the fixed failure sentence, which
contains no digit at all and differs from the severity-count summary
recomputed from the issue list — so not every result's summary restates
the issue counts. -/
theorem summary_empty_content_counterexample :
    (validate_content none "" ".txt").issues.length = 1 ∧
    ((validate_content none "" ".txt").issues.filter
      (fun i => i.severity == "high")).length = 1 ∧
    (validate_content none "" ".txt").summary =
      "Validation failed: Empty script content" ∧
    ((validate_content none "" ".txt").summary.data.any Char.isDigit) = false ∧
    (validate_content none "" ".txt").summary ≠
      mkSummary (validate_content none "" ".txt").issues := by
  refine ⟨rfl, rfl, rfl, rfl, ?_⟩
  decide

/-- C5 amended: for every result built from non-empty content, the
summary is exactly the text recomputed from the final issue list — the
total and the per-severity counts it states agree with the list (the
empty-content short-circuit instead carries a fixed failure sentence). -/
theorem summary_restates_counts (gemini : Option GeminiEnv)
    (content file_type : String) (h : content ≠ "") :
    (validate_content gemini content file_type).summary =
      mkSummary (validate_content gemini content file_type).issues := by
  unfold validate_content mkSummary
  simp [h]

/-- Witness for C5 amended at concrete non-empty content. -/
theorem summary_restates_counts_witness :
    (validate_content none "Just some prose." ".fountain").summary =
      mkSummary (validate_content none "Just some prose." ".fountain").issues :=
  summary_restates_counts none "Just some prose." ".fountain" (by decide)

/-- Per-severity counts survive the issue-to-JSON mapping. -/
theorem severity_count_map (sev : String) (l : List ValidationIssue) :
    ((l.map issueJson).filter (fun it =>
      match jsonField it "severity" with
      | some (Json.str s) => s == sev
      | _ => false)).length
      = (l.filter (fun i => i.severity == sev)).length := by
  induction l with
  | nil => rfl
  | cons a t ih =>
    have hp : (match jsonField (issueJson a) "severity" with
      | some (Json.str s) => s == sev
      | _ => false) = (a.severity == sev) := rfl
    simp only [List.map_cons, List.filter_cons, hp]
    cases h : a.severity == sev <;> simp [h, ih]

/-- C6: the structured-data report round-trips — `get_report` with the
json format serializes exactly the `reportJson` tree (field-for-field),
and reading that tree back (as `json.loads` of the emitted text does, the
dumps/loads pair being the standard library's inverse contract)
reproduces the original `valid` flag and, for every severity, the
original count of issues at that severity. -/
theorem json_report_roundtrip (r : ValidationResult) (sev : String) :
    get_report r "json" = Except.ok (dumpJson 0 (reportJson r)) ∧
    jsonValidFlag (reportJson r) = some r.valid ∧
    jsonSeverityCount (reportJson r) sev =
      (r.issues.filter (fun i => i.severity == sev)).length := by
  refine ⟨rfl, rfl, ?_⟩
  have h1 : jsonField (reportJson r) "issues" =
      some (Json.arr (r.issues.map issueJson)) := rfl
  unfold jsonSeverityCount
  rw [h1]
  exact severity_count_map sev r.issues

/-- C7 counterexample: for a path with no extension, `validate_file`
derives the empty string as the tag — not a generic default tag; the
spec-worded variant (`specFileTypeTag`, defaulting to the source's only
generic tag ".txt") disagrees with the code at "README". -/
theorem file_tag_no_generic_default :
    fileTypeOf "README" = "" ∧
    specFileTypeTag "README" = ".txt" ∧
    fileTypeOf "README" ≠ specFileTypeTag "README" ∧
    validate_file (fun p => if p = "README" then some "Some prose" else none)
        none "README" =
      Except.ok (validate_content none "Some prose" "") := by
  refine ⟨rfl, rfl, ?_, rfl⟩
  decide

/-- C7 amended: a missing path fails with the not-found error; an
existing path is read in full and validated under the tag
`splitext(path)[1].lower()` — which is the empty string, not a generic
default, when the extension is absent.  The difference is invisible in
the result: the empty tag and the generic ".txt" tag validate
identically. -/
theorem validate_file_contract (fs : String → Option String)
    (gemini : Option GeminiEnv) (file_path : String) :
    (fs file_path = none →
      validate_file fs gemini file_path =
        Except.error ("Script file not found: " ++ file_path)) ∧
    (∀ content, fs file_path = some content →
      validate_file fs gemini file_path =
        Except.ok (validate_content gemini content
          (pyLower (pySplitext file_path).2))) ∧
    (∀ content g, validate_content g content "" =
      validate_content g content ".txt") := by
  refine ⟨?_, ?_, ?_⟩
  · intro h
    simp [validate_file, h]
  · intro content h
    simp [validate_file, h, fileTypeOf]
  · intro content g
    unfold validate_content
    by_cases h : content = ""
    · simp [h]
    · have h0 : _validate_scene_structure content "" = [] := rfl
      have h1 : _validate_scene_structure content ".txt" = [] := rfl
      simp [h, h0, h1]

/-- Witness for C7 amended at a concrete filesystem: a missing path is a
not-found error; "script.FOUNTAIN" is validated under the lower-cased
tag ".fountain". -/
theorem validate_file_contract_witness :
    validate_file (fun _ => none) none "gone.txt" =
      Except.error "Script file not found: gone.txt" ∧
    validate_file (fun p => if p = "script.FOUNTAIN" then some "INT. X" else none)
        none "script.FOUNTAIN" =
      Except.ok (validate_content none "INT. X" ".fountain") :=
  ⟨(validate_file_contract (fun _ => none) none "gone.txt").1 rfl,
   (validate_file_contract
      (fun p => if p = "script.FOUNTAIN" then some "INT. X" else none)
      none "script.FOUNTAIN").2.1 "INT. X" (by decide)⟩

/-- C8 counterexample: a full dry run still performs a side-effecting
write — `run` writes `last_update_summary.md` unconditionally, so its
effect list is the non-empty list containing that file write. -/
theorem dry_run_still_writes_summary :
    ((updaterRun true "2025-06-21" "2025-06-21 12:00:00").any isFileWrite)
      = true ∧
    updaterRun true "2025-06-21" "2025-06-21 12:00:00" ≠ [] := by
  constructor
  · decide
  · decide

/-- C8 amended: with `dry_run=true` the five operations each return False
and perform no effect, and a full run's only effect is the unconditional
write of the summary file `last_update_summary.md` (which dry-run mode
does not suppress). -/
theorem dry_run_suppresses_method_effects (tool : ToolRecord)
    (today now summary : String) :
    update_documentation true tool = (false, []) ∧
    ensure_tool_directory true tool = (false, []) ∧
    update_tool_code true tool = (false, []) ∧
    update_last_updated true today tool = (false, []) ∧
    send_den_message true summary = (false, []) ∧
    updaterRun true today now =
      [UpdateEffect.writeFile "last_update_summary.md"
        (generate_summary_report now (update_tools true today get_tools_data).1)] := by
  refine ⟨rfl, ?_, rfl, rfl, rfl, rfl⟩
  unfold ensure_tool_directory
  by_cases h : tool.repositoryPath = "" <;> simp [h]

/-- C9: `get_report` succeeds with text exactly on the two recognized
formats (after lower-casing) and fails with the unsupported-format error,
carrying the offending format, on every other format string. -/
theorem report_format_dispatch (r : ValidationResult) (format : String) :
    ((pyLower format = "json" ∨ pyLower format = "html") →
      ∃ s, get_report r format = Except.ok s) ∧
    (pyLower format ≠ "json" → pyLower format ≠ "html" →
      get_report r format =
        Except.error ("Unsupported report format: " ++ format)) := by
  constructor
  · rintro (h | h)
    · exact ⟨dumpJson 0 (reportJson r), by simp [get_report, h]⟩
    · refine ⟨htmlReport r, ?_⟩
      have hne : pyLower format ≠ "json" := by rw [h]; decide
      simp [get_report, h, hne]
  · intro h1 h2
    simp [get_report, h1, h2]

/-- Witness for C9 at concrete formats: "JSON" renders, "xml" is the
unsupported-format error. -/
theorem report_format_dispatch_witness :
    (∃ s, get_report { valid := true, issues := [], summary := "ok" } "JSON" =
      Except.ok s) ∧
    get_report { valid := true, issues := [], summary := "ok" } "xml" =
      Except.error "Unsupported report format: xml" :=
  ⟨(report_format_dispatch { valid := true, issues := [], summary := "ok" }
      "JSON").1 (Or.inl (by decide)),
   (report_format_dispatch { valid := true, issues := [], summary := "ok" }
      "xml").2 (by decide) (by decide)⟩

/-- C10 counterexample: `get_report` is not extensionally invariant under
lower-casing its format argument — for the unrecognized format "XML" the
raised error embeds the original casing, so the outcome differs from the
lower-cased call's. -/
theorem report_format_case_counterexample :
    get_report { valid := true, issues := [], summary := "ok" } "XML" ≠
      get_report { valid := true, issues := [], summary := "ok" }
        (pyLower "XML") := by
  intro h
  have h1 : get_report { valid := true, issues := [], summary := "ok" } "XML" =
      Except.error "Unsupported report format: XML" := rfl
  have h2 : get_report { valid := true, issues := [], summary := "ok" }
      (pyLower "XML") = Except.error "Unsupported report format: xml" := rfl
  rw [h1, h2] at h
  injection h with h3
  exact absurd h3 (by decide)

/-- C10 amended: the format match itself is case-insensitive — whenever
the lower-cased format is one of the two recognized names, the report for
the original casing equals the report for the lower-cased one (only the
error message of the unrecognized-format failure preserves the original
casing). -/
theorem report_format_case_insensitive_on_known (r : ValidationResult)
    (format : String)
    (h : pyLower format = "json" ∨ pyLower format = "html") :
    get_report r format = get_report r (pyLower format) := by
  have hj : pyLower "json" = "json" := rfl
  have hh : pyLower "html" = "html" := rfl
  rcases h with h | h <;> simp [get_report, h, hj, hh]

/-- Witness for C10 amended: "Html" reports exactly as "html". -/
theorem report_format_case_insensitive_witness :
    get_report { valid := true, issues := [], summary := "ok" } "Html" =
      get_report { valid := true, issues := [], summary := "ok" }
        (pyLower "Html") :=
  report_format_case_insensitive_on_known
    { valid := true, issues := [], summary := "ok" } "Html" (Or.inr (by decide))
